import Mathlib

/-!
Verification development for the Google Forms MCP server (`src/main.py`).
The Python code is shallowly embedded: JSON values become an inductive
`GF.Json`, the durable token store (`tokens.py`, loaded via
`load_tokens`/`save_tokens`) becomes explicit state of type `GF.TokenStore`,
the network-facing Google Forms client becomes an oracle `GF.FormsBackend`,
and Python `KeyError` exceptions become `Except GF.PyErr`.  Backend calls and
token-store load/save operations are traced so that "no call was issued" and
"no load-mutate-save cycle happened" are provable statements.
-/

namespace GF

/-- JSON values as Python's `json` module produces them: `None`, booleans,
numbers (integers suffice for this program), strings, lists and dicts
(insertion-ordered association lists, as CPython dicts are). -/
inductive Json where
  | null : Json
  | bool (v : Bool) : Json
  | num (n : Int) : Json
  | str (s : String) : Json
  | arr (elems : List Json) : Json
  | obj (fields : List (String × Json)) : Json

/-- First-match lookup in an association list of JSON object fields
(objects built by the program never repeat a key, matching dict semantics). -/
def lookupStr : List (String × Json) → String → Option Json
  | [], _ => none
  | (k, v) :: rest, key => if k = key then some v else lookupStr rest key

/-- Python `d.get(key)` on a dict: `none` when the key is absent.
On a non-dict value this embedding yields `none` (the Python original would
raise; no claim exercises that path, and theorems hypothesise dict shape). -/
def Json.get? : Json → String → Option Json
  | Json.obj fields, key => lookupStr fields key
  | _, _ => none

/-- Python `d.get(key, default)`. -/
def Json.getD (j : Json) (key : String) (default : Json) : Json :=
  (j.get? key).getD default

/-- Python `j == "s"`: equality of a JSON value with a string literal
(a non-string JSON value never equals a Python `str`). -/
def Json.isStrEq : Json → String → Bool
  | Json.str t, s => t = s
  | _, _ => false

/-- The single-quote character, kept out of string literals. -/
def SQ : String := String.singleton (Char.ofNat 39)

/-- A stored OAuth credential pair, as `google_callback` writes it:
`{"token": ..., "refresh_token": ...}` where the refresh token may be the
Python `None` (modelled by `Option.none`). -/
structure CredentialRecord where
  token : String
  refresh_token : Option String
deriving DecidableEq, Repr

/-- The durable user-id → credential mapping behind
`load_tokens`/`save_tokens` (a dict: insertion-ordered association list). -/
def TokenStore := List (String × CredentialRecord)

/-- Dict membership / lookup on the token store (`tokens.get(user_id)`,
`user_id in tokens`). -/
def lookupUser : TokenStore → String → Option CredentialRecord
  | [], _ => none
  | (k, v) :: rest, u => if k = u then some v else lookupUser rest u

/-- Dict assignment `tokens[user_id] = rec`: replaces in place when the key
exists, otherwise appends. -/
def setUser : TokenStore → String → CredentialRecord → TokenStore
  | [], u, r => [(u, r)]
  | (k, v) :: rest, u, r =>
    if k = u then (u, r) :: rest else (k, v) :: setUser rest u r

/-- Embeds `src/main.py:61` `get_user_id`:
`payload.get("meta", {}).get("user_id", "default")`.  Per the spec's data
model `meta.userId` is `string|absent`, so a present non-string value also
falls back to the sentinel here. -/
def get_user_id (payload : Json) : String :=
  match (payload.getD "meta" (Json.obj [])).get? "user_id" with
  | some (Json.str s) => s
  | _ => "default"

/-- Embeds `src/main.py:65` `auth_error`: the 401 authorization-error envelope.
`base` is the environment-derived `BASE_URL`. -/
def auth_error (base : String) (id_ : Json) (user_id : String) : Json :=
  Json.obj
    [("jsonrpc", Json.str "2.0"),
     ("id", id_),
     ("error", Json.obj
       [("code", Json.num 401),
        ("message", Json.str
          ("Google Forms not connected for user " ++ SQ ++ user_id ++ SQ ++
           ". Visit " ++ base ++ "/auth/google?user_id=" ++ user_id))])]

/-- Python `a or b` on optional strings: `a` unless `a` is falsy
(`None` or the empty string), in which case `b`. -/
def pyOr (a b : Option String) : Option String :=
  match a with
  | some s => if s = "" then b else some s
  | none => b

/-- Trace of token-store operations (`load_tokens` / `save_tokens`). -/
inductive StoreOp where
  | load : StoreOp
  | save : StoreOp
deriving DecidableEq, Repr

/-- Embeds `src/main.py:91` `google_callback`, with the store passed as explicit
state.  `code` and `state` are the query parameters; the token exchange
(`flow.fetch_token`, a network call) is summarised by its outcome
`exch_token`/`exch_refresh` (`flow.credentials.token` /
`flow.credentials.refresh_token`).  Returns the new store, the trace of
store operations, and the response body. -/
def google_callback (store : TokenStore) (code state : Option String)
    (exch_token : String) (exch_refresh : Option String) :
    TokenStore × List StoreOp × Json :=
  if (code.getD "") = "" then
    (store, [], Json.obj [("status", Json.str "waiting for google authorization")])
  else
    let user_id := state.getD "default"
    let existing_refresh :=
      match lookupUser store user_id with
      | some r => r.refresh_token
      | none => none
    let record : CredentialRecord :=
      ⟨exch_token, pyOr exch_refresh existing_refresh⟩
    (setUser store user_id record, [StoreOp.load, StoreOp.save],
     Json.obj [("status", Json.str "forms connected successfully"),
               ("user", Json.str user_id)])

/-- Python `KeyError` raised by a `d[key]` subscript on a missing key. -/
inductive PyErr where
  | keyError (key : String) : PyErr
deriving DecidableEq, Repr

/-- The live credential object built by `get_forms_service`
(`src/main.py:124`): the stored pair plus fixed configuration.  The constant
`token_uri`, client id/secret and scopes are environment constants and are
not modelled as fields. -/
structure Credentials where
  token : String
  refresh_token : Option String

/-- Embeds `src/main.py:119` `get_forms_service`: `None` when the user has no
stored record, else a credential wrapping the stored pair (the subsequent
`build(...)` produces the client the backend oracle stands for). -/
def get_forms_service (store : TokenStore) (user_id : String) :
    Option Credentials :=
  match lookupUser store user_id with
  | none => none
  | some record => some ⟨record.token, record.refresh_token⟩

/-- The external Google Forms API, as an oracle: what
`service.forms().get(formId=...).execute()` and
`service.forms().responses().list(formId=..., pageSize=...).execute()`
return for a given user.  Arguments are kept as JSON values exactly as the
dispatcher passes them. -/
structure FormsBackend where
  getForm : String → Json → Json
  listResponses : String → Json → Json → Json

/-- One issued upstream call, for the trace. -/
inductive BackendCall where
  | getForm (user : String) (formId : Json) : BackendCall
  | listResponses (user : String) (formId : Json) (pageSize : Json) : BackendCall

/-- Embeds `src/main.py:136` `forms_get_form`.  Returns the trace of issued
backend calls together with the result: the sentinel string
`"AUTH_REQUIRED"` when unauthorized, otherwise the mapped summary dict;
dict subscripts on the upstream reply may raise `KeyError` (in source
order: `form["formId"]`, then `form["info"]["title"]`). -/
def forms_get_form (backend : FormsBackend) (store : TokenStore)
    (user_id : String) (form_id : Json) :
    List BackendCall × Except PyErr Json :=
  match get_forms_service store user_id with
  | none => ([], Except.ok (Json.str "AUTH_REQUIRED"))
  | some _ =>
    let form := backend.getForm user_id form_id
    let trace := [BackendCall.getForm user_id form_id]
    match form.get? "formId" with
    | none => (trace, Except.error (PyErr.keyError "formId"))
    | some fid =>
      match form.get? "info" with
      | none => (trace, Except.error (PyErr.keyError "info"))
      | some info =>
        match info.get? "title" with
        | none => (trace, Except.error (PyErr.keyError "title"))
        | some title =>
          (trace, Except.ok (Json.obj
            [("formId", fid),
             ("title", title),
             ("documentTitle", info.getD "documentTitle" Json.null)]))

/-- Embeds `src/main.py:150` `forms_list_responses`: the sentinel when
unauthorized, otherwise `res.get("responses", [])` of the upstream reply. -/
def forms_list_responses (backend : FormsBackend) (store : TokenStore)
    (user_id : String) (form_id : Json) (max_results : Json) :
    List BackendCall × Except PyErr Json :=
  match get_forms_service store user_id with
  | none => ([], Except.ok (Json.str "AUTH_REQUIRED"))
  | some _ =>
    let res := backend.listResponses user_id form_id max_results
    ([BackendCall.listResponses user_id form_id max_results],
     Except.ok (res.getD "responses" (Json.arr [])))

/-- An HTTP-level response: FastAPI sends a returned dict with status 200;
the explicit `JSONResponse(status_code=400, ...)` carries 400. -/
structure HttpResponse where
  status : Nat
  body : Json

/-- The `initialize` response body (`src/main.py:181`). -/
def initializeBody (id_ : Json) : Json :=
  Json.obj
    [("jsonrpc", Json.str "2.0"),
     ("id", id_),
     ("result", Json.obj
       [("serverInfo", Json.obj
         [("name", Json.str "Multi-User Google Forms MCP"),
          ("version", Json.str "0.1.0")])])]

/-- The fixed tool catalog (`src/main.py:198`), the `result.tools` value of
`tools/list`. -/
def toolsCatalog : Json :=
  Json.arr
    [Json.obj
      [("name", Json.str "forms.get_form"),
       ("description", Json.str "Get basic information about a Google Form"),
       ("inputSchema", Json.obj
         [("type", Json.str "object"),
          ("properties", Json.obj
            [("form_id", Json.obj
              [("type", Json.str "string"),
               ("description", Json.str "Google Form ID")])]),
          ("required", Json.arr [Json.str "form_id"])])],
     Json.obj
      [("name", Json.str "forms.list_responses"),
       ("description", Json.str "List responses of a Google Form"),
       ("inputSchema", Json.obj
         [("type", Json.str "object"),
          ("properties", Json.obj
            [("form_id", Json.obj
              [("type", Json.str "string"),
               ("description", Json.str "Google Form ID")]),
             ("max_results", Json.obj
              [("type", Json.str "integer"),
               ("default", Json.num 5)])]),
          ("required", Json.arr [Json.str "form_id"])])]]

/-- The `tools/list` response body (`src/main.py:194`). -/
def toolsListBody (id_ : Json) : Json :=
  Json.obj
    [("jsonrpc", Json.str "2.0"),
     ("id", id_),
     ("result", Json.obj [("tools", toolsCatalog)])]

/-- The `tools/call` success envelope (`src/main.py:244` and `:258`):
the tool result nested under a single typed content item. -/
def callSuccessBody (id_ res : Json) : Json :=
  Json.obj
    [("jsonrpc", Json.str "2.0"),
     ("id", id_),
     ("result", Json.obj
       [("content", Json.arr
         [Json.obj [("type", Json.str "json"), ("json", res)]])])]

/-- The catch-all error body (`src/main.py:264`), sent with HTTP 400. -/
def methodNotFoundBody (id_ : Json) : Json :=
  Json.obj
    [("jsonrpc", Json.str "2.0"),
     ("id", id_),
     ("error", Json.obj
       [("code", Json.num (-32601)),
        ("message", Json.str "Method not found")])]

/-- Embeds `src/main.py:172` `mcp_handler`, over the parsed request body
`payload`.  `base` is `BASE_URL`; the store is explicit state (read-only
here); the result pairs the trace of issued backend calls with either the
HTTP response or an uncaught `KeyError` (Python subscripts `payload["params"]`,
`payload["params"]["name"]`, `args["form_id"]`). -/
def mcp_handler (base : String) (backend : FormsBackend)
    (store : TokenStore) (payload : Json) :
    List BackendCall × Except PyErr HttpResponse :=
  let method := payload.getD "method" Json.null
  let id_ := payload.getD "id" Json.null
  let user_id := get_user_id payload
  if method.isStrEq "initialize" then
    ([], Except.ok ⟨200, initializeBody id_⟩)
  else if method.isStrEq "tools/list" then
    ([], Except.ok ⟨200, toolsListBody id_⟩)
  else if method.isStrEq "tools/call" then
    match payload.get? "params" with
    | none => ([], Except.error (PyErr.keyError "params"))
    | some params =>
      match params.get? "name" with
      | none => ([], Except.error (PyErr.keyError "name"))
      | some tool =>
        let args := params.getD "arguments" (Json.obj [])
        if tool.isStrEq "forms.get_form" then
          match args.get? "form_id" with
          | none => ([], Except.error (PyErr.keyError "form_id"))
          | some form_id =>
            match forms_get_form backend store user_id form_id with
            | (trace, Except.error e) => (trace, Except.error e)
            | (trace, Except.ok res) =>
              if res.isStrEq "AUTH_REQUIRED" then
                (trace, Except.ok ⟨200, auth_error base id_ user_id⟩)
              else
                (trace, Except.ok ⟨200, callSuccessBody id_ res⟩)
        else if tool.isStrEq "forms.list_responses" then
          match args.get? "form_id" with
          | none => ([], Except.error (PyErr.keyError "form_id"))
          | some form_id =>
            match forms_list_responses backend store user_id form_id
                (args.getD "max_results" (Json.num 5)) with
            | (trace, Except.error e) => (trace, Except.error e)
            | (trace, Except.ok res) =>
              if res.isStrEq "AUTH_REQUIRED" then
                (trace, Except.ok ⟨200, auth_error base id_ user_id⟩)
              else
                (trace, Except.ok ⟨200, callSuccessBody id_ res⟩)
        else
          ([], Except.ok ⟨400, methodNotFoundBody id_⟩)
  else
    ([], Except.ok ⟨400, methodNotFoundBody id_⟩)

/-- A canonical `tools/call` request body: `{"jsonrpc": "2.0", "id": ...,
"method": "tools/call", "params": {"name": ..., "arguments": ...},
"meta": {"user_id": ...}}`. -/
def mkCallPayload (id_ : Json) (u : String) (tool : Json) (args : Json) :
    Json :=
  Json.obj
    [("jsonrpc", Json.str "2.0"),
     ("id", id_),
     ("method", Json.str "tools/call"),
     ("params", Json.obj [("name", tool), ("arguments", args)]),
     ("meta", Json.obj [("user_id", Json.str u)])]

/-- A canonical request body with an arbitrary `method` value and no
`params`. -/
def mkMethodPayload (id_ : Json) (u : String) (method : Json) : Json :=
  Json.obj
    [("jsonrpc", Json.str "2.0"),
     ("id", id_),
     ("method", method),
     ("meta", Json.obj [("user_id", Json.str u)])]

/-- A backend oracle with fixed empty replies, used for concrete witnesses. -/
def emptyBackend : FormsBackend :=
  FormsBackend.mk (fun _ _ => Json.obj []) (fun _ _ _ => Json.obj [])

example :
    mcp_handler "http://b" emptyBackend []
      (mkCallPayload Json.null "alice" (Json.str "forms.get_form")
        (Json.obj [("form_id", Json.str "F")])) =
    ([], Except.ok ⟨200, auth_error "http://b" Json.null "alice"⟩) := rfl

example :
    mcp_handler "http://b" emptyBackend []
      (mkCallPayload (Json.num 7) "alice" (Json.str "forms.get_form")
        (Json.obj [])) =
    ([], Except.error (PyErr.keyError "form_id")) := rfl

example :
    mcp_handler "http://b" emptyBackend []
      (mkMethodPayload (Json.num 7) "alice" (Json.str "foo")) =
    ([], Except.ok ⟨400, methodNotFoundBody (Json.num 7)⟩) := rfl

example :
    google_callback [] none (some "alice") "t2" (some "r2") =
    ([], [],
      Json.obj [("status", Json.str "waiting for google authorization")]) := rfl

example :
    google_callback [("alice", ⟨"t1", some "r1"⟩)] (some "c") (some "alice")
      "t2" none =
    ([("alice", ⟨"t2", some "r1"⟩)], [StoreOp.load, StoreOp.save],
      Json.obj [("status", Json.str "forms connected successfully"),
                ("user", Json.str "alice")]) := rfl

/-! ## Helper lemmas -/

@[simp] theorem get?_obj (fields : List (String × Json)) (key : String) :
    (Json.obj fields).get? key = lookupStr fields key := rfl

@[simp] theorem isStrEq_str (t s : String) :
    (Json.str t).isStrEq s = decide (t = s) := rfl

@[simp] theorem isStrEq_null (s : String) :
    Json.null.isStrEq s = false := rfl

@[simp] theorem isStrEq_bool (v : Bool) (s : String) :
    (Json.bool v).isStrEq s = false := rfl

@[simp] theorem isStrEq_num (n : Int) (s : String) :
    (Json.num n).isStrEq s = false := rfl

@[simp] theorem isStrEq_arr (xs : List Json) (s : String) :
    (Json.arr xs).isStrEq s = false := rfl

@[simp] theorem isStrEq_obj (fields : List (String × Json)) (s : String) :
    (Json.obj fields).isStrEq s = false := rfl

/-- Dict assignment followed by lookup of the same key yields the new
record. -/
theorem lookupUser_setUser_self (store : TokenStore) (u : String)
    (r : CredentialRecord) : lookupUser (setUser store u r) u = some r := by
  induction store with
  | nil => simp [setUser, lookupUser]
  | cons kv rest ih =>
    obtain ⟨k, v⟩ := kv
    by_cases hk : k = u
    · subst hk
      simp [setUser, lookupUser]
    · simp [setUser, lookupUser, hk, ih]

/-- `pyOr` never turns a present second operand into an absent result. -/
theorem pyOr_isSome_right (a : Option String) (r : String) :
    ∃ s, pyOr a (some r) = some s := by
  cases a with
  | none => exact ⟨r, rfl⟩
  | some s =>
    by_cases hs : s = ""
    · exact ⟨r, by simp [pyOr, hs]⟩
    · exact ⟨s, by simp [pyOr, hs]⟩

/-! ## Claims -/

/-- Claim C3: any `/mcp` request whose top-level `method` is not
`initialize`, `tools/list` or `tools/call` yields HTTP status 400 with the
JSON-RPC error envelope of code `-32601` and message `Method not found`. -/
theorem C3_unknown_method_400 (base : String) (backend : FormsBackend)
    (store : TokenStore) (fields : List (String × Json))
    (h1 : ((Json.obj fields).getD "method" Json.null).isStrEq "initialize"
      = false)
    (h2 : ((Json.obj fields).getD "method" Json.null).isStrEq "tools/list"
      = false)
    (h3 : ((Json.obj fields).getD "method" Json.null).isStrEq "tools/call"
      = false) :
    mcp_handler base backend store (Json.obj fields) =
      ([], Except.ok ⟨400,
        methodNotFoundBody ((Json.obj fields).getD "id" Json.null)⟩) ∧
    ∀ i : Json, (methodNotFoundBody i).get? "error" =
      some (Json.obj [("code", Json.num (-32601)),
                      ("message", Json.str "Method not found")]) := by
  constructor
  · simp only [mcp_handler, h1, h2, h3]
    simp
  · intro i
    rfl

/-- Witness for C3 at the concrete unknown method `"foo"`. -/
theorem C3_unknown_method_400_witness :
    mcp_handler "http://b" emptyBackend []
        (mkMethodPayload (Json.num 7) "alice" (Json.str "foo")) =
      ([], Except.ok ⟨400,
        methodNotFoundBody ((mkMethodPayload (Json.num 7) "alice"
          (Json.str "foo")).getD "id" Json.null)⟩) ∧
    ∀ i : Json, (methodNotFoundBody i).get? "error" =
      some (Json.obj [("code", Json.num (-32601)),
                      ("message", Json.str "Method not found")]) :=
  C3_unknown_method_400 "http://b" emptyBackend []
    [("jsonrpc", Json.str "2.0"), ("id", Json.num 7),
     ("method", Json.str "foo"),
     ("meta", Json.obj [("user_id", Json.str "alice")])]
    rfl rfl rfl

/-- Claim C4: a callback carrying no authorization `code` (absent, or the
empty string, both falsy in the source's `if not code:` guard) returns the
neutral waiting status, leaves the store unchanged and performs no
load/save operation at all. -/
theorem C4_no_code_no_mutation (store : TokenStore)
    (code state : Option String) (exch_token : String)
    (exch_refresh : Option String)
    (h : code = none ∨ code = some "") :
    google_callback store code state exch_token exch_refresh =
      (store, [],
       Json.obj [("status", Json.str "waiting for google authorization")]) := by
  rcases h with h | h <;> subst h <;> simp [google_callback]

/-- Witness for C4 at a concrete non-empty store. -/
theorem C4_no_code_no_mutation_witness :
    google_callback [("alice", ⟨"t1", some "r1"⟩)] none (some "alice")
        "t2" (some "r2") =
      ([("alice", ⟨"t1", some "r1"⟩)], [],
       Json.obj [("status", Json.str "waiting for google authorization")]) :=
  C4_no_code_no_mutation [("alice", ⟨"t1", some "r1"⟩)] none (some "alice")
    "t2" (some "r2") (Or.inl rfl)

/-- Claim C2: refresh-token preservation in `google_callback`.  For a user
with stored pair `{token: t1, refresh_token: r1}`, a successful callback
whose exchange yields no refresh token stores `{token: t2, refresh_token:
r1}`; one yielding a (non-falsy) refresh token `r2` stores `{token: t2,
refresh_token: r2}`; and after any successful callback the stored refresh
token is never absent. -/
theorem C2_refresh_token_preserved (store : TokenStore)
    (u c t1 t2 r1 r2 : String) (hc : c ≠ "") (hr2 : r2 ≠ "")
    (hstore : lookupUser store u = some ⟨t1, some r1⟩) :
    lookupUser (google_callback store (some c) (some u) t2 none).1 u =
      some ⟨t2, some r1⟩ ∧
    lookupUser (google_callback store (some c) (some u) t2 (some r2)).1 u =
      some ⟨t2, some r2⟩ ∧
    ∀ (t : String) (exch_refresh : Option String), ∃ s : String,
      lookupUser (google_callback store (some c) (some u) t exch_refresh).1 u
        = some ⟨t, some s⟩ := by
  refine ⟨?_, ?_, ?_⟩
  · simp only [google_callback, Option.getD, hc, if_neg, hstore]
    simp [hc, lookupUser_setUser_self, pyOr]
  · simp only [google_callback, Option.getD, hc, if_neg, hstore]
    simp [hc, hr2, lookupUser_setUser_self, pyOr]
  · intro t exch_refresh
    obtain ⟨s, hs⟩ := pyOr_isSome_right exch_refresh r1
    refine ⟨s, ?_⟩
    simp only [google_callback, Option.getD, hc, if_neg, hstore]
    simp [hc, lookupUser_setUser_self, hs]

/-- Witness for C2 on a concrete one-user store. -/
theorem C2_refresh_token_preserved_witness :
    lookupUser (google_callback [("alice", ⟨"t1", some "r1"⟩)] (some "c")
        (some "alice") "t2" none).1 "alice" = some ⟨"t2", some "r1"⟩ ∧
    lookupUser (google_callback [("alice", ⟨"t1", some "r1"⟩)] (some "c")
        (some "alice") "t2" (some "r2")).1 "alice" = some ⟨"t2", some "r2"⟩ ∧
    ∀ (t : String) (exch_refresh : Option String), ∃ s : String,
      lookupUser (google_callback [("alice", ⟨"t1", some "r1"⟩)] (some "c")
          (some "alice") t exch_refresh).1 "alice" = some ⟨t, some s⟩ :=
  C2_refresh_token_preserved [("alice", ⟨"t1", some "r1"⟩)] "alice" "c"
    "t1" "t2" "r1" "r2" (by decide) (by decide) rfl

/-- Any `tools/call` of a recognized tool by a user with no stored record
returns the 401 envelope with trace empty (no backend call). -/
theorem mcp_call_unauthorized (base : String) (backend : FormsBackend)
    (store : TokenStore) (id_ : Json) (u : String) (fid : Json) (args : Json)
    (tool : Json)
    (htool : tool = Json.str "forms.get_form" ∨
      tool = Json.str "forms.list_responses")
    (hu : lookupUser store u = none)
    (hf : args.get? "form_id" = some fid) :
    mcp_handler base backend store (mkCallPayload id_ u tool args) =
      ([], Except.ok ⟨200, auth_error base id_ u⟩) := by
  rcases htool with h | h <;> subst h <;>
    simp [mcp_handler, mkCallPayload, get_user_id, Json.getD, lookupStr,
      forms_get_form, forms_list_responses, get_forms_service, hu, hf]

/-- Claim C1: for a user with no stored credential, a `tools/call` of
either tool returns the identical 401 envelope whose error carries code
401 and a message naming the user and ending in the recovery URL
`<BASE_URL>/auth/google?user_id=<user>`. -/
theorem C1_unauthorized_401_envelope (base : String) (backend : FormsBackend)
    (store : TokenStore) (id_ : Json) (u : String) (fid : Json) (args : Json)
    (hu : lookupUser store u = none)
    (hf : args.get? "form_id" = some fid) :
    mcp_handler base backend store
        (mkCallPayload id_ u (Json.str "forms.get_form") args) =
      ([], Except.ok ⟨200, auth_error base id_ u⟩) ∧
    mcp_handler base backend store
        (mkCallPayload id_ u (Json.str "forms.list_responses") args) =
      ([], Except.ok ⟨200, auth_error base id_ u⟩) ∧
    (auth_error base id_ u).get? "error" = some (Json.obj
      [("code", Json.num 401),
       ("message", Json.str
         (("Google Forms not connected for user " ++ SQ ++ u ++ SQ ++
           ". Visit ") ++ (base ++ "/auth/google?user_id=" ++ u)))]) := by
  refine ⟨?_, ?_, ?_⟩
  · exact mcp_call_unauthorized base backend store id_ u fid args _
      (Or.inl rfl) hu hf
  · exact mcp_call_unauthorized base backend store id_ u fid args _
      (Or.inr rfl) hu hf
  · simp [auth_error, lookupStr, String.append_assoc]

/-- Witness for C1: unauthorized `alice` against the empty store. -/
theorem C1_unauthorized_401_envelope_witness :
    mcp_handler "http://b" emptyBackend []
        (mkCallPayload Json.null "alice" (Json.str "forms.get_form")
          (Json.obj [("form_id", Json.str "F")])) =
      ([], Except.ok ⟨200, auth_error "http://b" Json.null "alice"⟩) ∧
    mcp_handler "http://b" emptyBackend []
        (mkCallPayload Json.null "alice" (Json.str "forms.list_responses")
          (Json.obj [("form_id", Json.str "F")])) =
      ([], Except.ok ⟨200, auth_error "http://b" Json.null "alice"⟩) ∧
    (auth_error "http://b" Json.null "alice").get? "error" = some (Json.obj
      [("code", Json.num 401),
       ("message", Json.str
         (("Google Forms not connected for user " ++ SQ ++ "alice" ++ SQ ++
           ". Visit ") ++
          ("http://b" ++ "/auth/google?user_id=" ++ "alice")))]) :=
  C1_unauthorized_401_envelope "http://b" emptyBackend [] Json.null "alice"
    (Json.str "F") (Json.obj [("form_id", Json.str "F")]) rfl rfl

/-- Claim C8: the authorization gate precedes all upstream work — for a
user with no stored record, no credential is constructed
(`get_forms_service` is `None`) and no backend call is issued (empty
trace); the sole effect of either recognized `tools/call` is the 401
envelope. -/
theorem C8_auth_gate_first (base : String) (backend : FormsBackend)
    (store : TokenStore) (id_ : Json) (u : String) (fid : Json) (args : Json)
    (hu : lookupUser store u = none)
    (hf : args.get? "form_id" = some fid) :
    get_forms_service store u = none ∧
    mcp_handler base backend store
        (mkCallPayload id_ u (Json.str "forms.get_form") args) =
      ([], Except.ok ⟨200, auth_error base id_ u⟩) ∧
    mcp_handler base backend store
        (mkCallPayload id_ u (Json.str "forms.list_responses") args) =
      ([], Except.ok ⟨200, auth_error base id_ u⟩) := by
  refine ⟨by simp [get_forms_service, hu], ?_, ?_⟩
  · exact mcp_call_unauthorized base backend store id_ u fid args _
      (Or.inl rfl) hu hf
  · exact mcp_call_unauthorized base backend store id_ u fid args _
      (Or.inr rfl) hu hf

/-- Witness for C8: unauthorized `bob` against a store that only knows
`alice`. -/
theorem C8_auth_gate_first_witness :
    get_forms_service [("alice", ⟨"t", some "r"⟩)] "bob" = none ∧
    mcp_handler "http://b" emptyBackend [("alice", ⟨"t", some "r"⟩)]
        (mkCallPayload (Json.num 2) "bob" (Json.str "forms.get_form")
          (Json.obj [("form_id", Json.str "F")])) =
      ([], Except.ok ⟨200, auth_error "http://b" (Json.num 2) "bob"⟩) ∧
    mcp_handler "http://b" emptyBackend [("alice", ⟨"t", some "r"⟩)]
        (mkCallPayload (Json.num 2) "bob" (Json.str "forms.list_responses")
          (Json.obj [("form_id", Json.str "F")])) =
      ([], Except.ok ⟨200, auth_error "http://b" (Json.num 2) "bob"⟩) :=
  C8_auth_gate_first "http://b" emptyBackend [("alice", ⟨"t", some "r"⟩)]
    (Json.num 2) "bob" (Json.str "F")
    (Json.obj [("form_id", Json.str "F")]) rfl rfl

/-- Claim C6: a `tools/call` whose `params.name` is neither recognized tool
produces exactly the unknown-method result — HTTP 400 with code `-32601` —
with an empty backend trace, for every store (no authorization check), and
this value coincides with the one an unknown top-level method (`"foo"`)
produces. -/
theorem C6_unknown_tool_same_as_unknown_method (base : String)
    (backend : FormsBackend) (store : TokenStore) (id_ : Json) (u : String)
    (tool args : Json)
    (h1 : tool.isStrEq "forms.get_form" = false)
    (h2 : tool.isStrEq "forms.list_responses" = false) :
    mcp_handler base backend store (mkCallPayload id_ u tool args) =
      ([], Except.ok ⟨400, methodNotFoundBody id_⟩) ∧
    mcp_handler base backend store
        (mkMethodPayload id_ u (Json.str "foo")) =
      ([], Except.ok ⟨400, methodNotFoundBody id_⟩) := by
  constructor <;>
    simp [mcp_handler, mkCallPayload, mkMethodPayload, get_user_id,
      Json.getD, lookupStr, h1, h2]

/-- Witness for C6 at the concrete unknown tool `"forms.delete_form"`. -/
theorem C6_unknown_tool_same_as_unknown_method_witness :
    mcp_handler "http://b" emptyBackend []
        (mkCallPayload (Json.num 4) "alice" (Json.str "forms.delete_form")
          (Json.obj [])) =
      ([], Except.ok ⟨400, methodNotFoundBody (Json.num 4)⟩) ∧
    mcp_handler "http://b" emptyBackend []
        (mkMethodPayload (Json.num 4) "alice" (Json.str "foo")) =
      ([], Except.ok ⟨400, methodNotFoundBody (Json.num 4)⟩) :=
  C6_unknown_tool_same_as_unknown_method "http://b" emptyBackend []
    (Json.num 4) "alice" (Json.str "forms.delete_form") (Json.obj [])
    rfl rfl

/-- Claim C7: for an authorized user, `forms.list_responses` invokes the
backend with `pageSize = 5` when `max_results` is absent and with the given
value when present, passing `form_id` through unchanged; omitting `form_id`
raises the `KeyError`. -/
theorem C7_max_results_default (base : String) (backend : FormsBackend)
    (store : TokenStore) (id_ : Json) (u : String) (fid n : Json)
    (rec : CredentialRecord)
    (hauth : lookupUser store u = some rec) :
    (mcp_handler base backend store
        (mkCallPayload id_ u (Json.str "forms.list_responses")
          (Json.obj [("form_id", fid)]))).1 =
      [BackendCall.listResponses u fid (Json.num 5)] ∧
    (mcp_handler base backend store
        (mkCallPayload id_ u (Json.str "forms.list_responses")
          (Json.obj [("form_id", fid), ("max_results", n)]))).1 =
      [BackendCall.listResponses u fid n] ∧
    mcp_handler base backend store
        (mkCallPayload id_ u (Json.str "forms.list_responses")
          (Json.obj [("max_results", n)])) =
      ([], Except.error (PyErr.keyError "form_id")) := by
  refine ⟨?_, ?_, ?_⟩ <;>
    simp [mcp_handler, mkCallPayload, get_user_id, Json.getD, lookupStr,
      forms_list_responses, get_forms_service, hauth, apply_ite]

/-- Witness for C7 on a concrete authorized store. -/
theorem C7_max_results_default_witness :
    (mcp_handler "http://b" emptyBackend [("alice", ⟨"t", some "r"⟩)]
        (mkCallPayload Json.null "alice" (Json.str "forms.list_responses")
          (Json.obj [("form_id", Json.str "F")]))).1 =
      [BackendCall.listResponses "alice" (Json.str "F") (Json.num 5)] ∧
    (mcp_handler "http://b" emptyBackend [("alice", ⟨"t", some "r"⟩)]
        (mkCallPayload Json.null "alice" (Json.str "forms.list_responses")
          (Json.obj [("form_id", Json.str "F"),
                     ("max_results", Json.num 9)]))).1 =
      [BackendCall.listResponses "alice" (Json.str "F") (Json.num 9)] ∧
    mcp_handler "http://b" emptyBackend [("alice", ⟨"t", some "r"⟩)]
        (mkCallPayload Json.null "alice" (Json.str "forms.list_responses")
          (Json.obj [("max_results", Json.num 9)])) =
      ([], Except.error (PyErr.keyError "form_id")) :=
  C7_max_results_default "http://b" emptyBackend
    [("alice", ⟨"t", some "r"⟩)] Json.null "alice" (Json.str "F")
    (Json.num 9) ⟨"t", some "r"⟩ rfl

/-- Counterexample to claim C5 as stated: at a concrete `tools/call` of
`forms.get_form` whose arguments omit `form_id`, the dispatcher does not
produce a shaped rejection but an uncaught `KeyError` (HTTP-framework 500),
contradicting "a shaped rejection, not an unhandled failure". -/
theorem C5_counterexample_keyerror :
    mcp_handler "http://b" emptyBackend []
        (mkCallPayload (Json.num 1) "alice" (Json.str "forms.get_form")
          (Json.obj [])) =
      ([], Except.error (PyErr.keyError "form_id")) := rfl

/-- Claim C5 (amended): the `tools/list` result is the fixed catalog of
exactly two descriptors (`forms.get_form`, `forms.list_responses`), each
declaring `form_id` required, identically on every call; a `tools/call` of
either tool whose arguments omit `form_id` is rejected, but by an uncaught
`KeyError` on `args["form_id"]` — a propagated exception, not a shaped
envelope. -/
theorem C5_catalog_and_required_fields (base : String)
    (backend : FormsBackend) (store : TokenStore) (id_ : Json) (u : String)
    (args : Json)
    (hf : args.get? "form_id" = none) :
    mcp_handler base backend store
        (mkMethodPayload id_ u (Json.str "tools/list")) =
      ([], Except.ok ⟨200, toolsListBody id_⟩) ∧
    (∃ d1 d2 : Json, toolsCatalog = Json.arr [d1, d2] ∧
      d1.get? "name" = some (Json.str "forms.get_form") ∧
      d2.get? "name" = some (Json.str "forms.list_responses") ∧
      (d1.getD "inputSchema" Json.null).get? "required" =
        some (Json.arr [Json.str "form_id"]) ∧
      (d2.getD "inputSchema" Json.null).get? "required" =
        some (Json.arr [Json.str "form_id"])) ∧
    mcp_handler base backend store
        (mkCallPayload id_ u (Json.str "forms.get_form") args) =
      ([], Except.error (PyErr.keyError "form_id")) ∧
    mcp_handler base backend store
        (mkCallPayload id_ u (Json.str "forms.list_responses") args) =
      ([], Except.error (PyErr.keyError "form_id")) := by
  refine ⟨?_, ⟨_, _, rfl, rfl, rfl, rfl, rfl⟩, ?_, ?_⟩ <;>
    simp [mcp_handler, mkCallPayload, mkMethodPayload, get_user_id,
      Json.getD, lookupStr, hf]

/-- Witness for C5 (amended) at concrete empty arguments. -/
theorem C5_catalog_and_required_fields_witness :
    mcp_handler "http://b" emptyBackend []
        (mkMethodPayload (Json.num 3) "alice" (Json.str "tools/list")) =
      ([], Except.ok ⟨200, toolsListBody (Json.num 3)⟩) ∧
    (∃ d1 d2 : Json, toolsCatalog = Json.arr [d1, d2] ∧
      d1.get? "name" = some (Json.str "forms.get_form") ∧
      d2.get? "name" = some (Json.str "forms.list_responses") ∧
      (d1.getD "inputSchema" Json.null).get? "required" =
        some (Json.arr [Json.str "form_id"]) ∧
      (d2.getD "inputSchema" Json.null).get? "required" =
        some (Json.arr [Json.str "form_id"])) ∧
    mcp_handler "http://b" emptyBackend []
        (mkCallPayload (Json.num 3) "alice" (Json.str "forms.get_form")
          (Json.obj [("other", Json.num 1)])) =
      ([], Except.error (PyErr.keyError "form_id")) ∧
    mcp_handler "http://b" emptyBackend []
        (mkCallPayload (Json.num 3) "alice" (Json.str "forms.list_responses")
          (Json.obj [("other", Json.num 1)])) =
      ([], Except.error (PyErr.keyError "form_id")) :=
  C5_catalog_and_required_fields "http://b" emptyBackend [] (Json.num 3)
    "alice" (Json.obj [("other", Json.num 1)]) rfl

/-- Claim C10: for an authorized user, the `forms.list_responses` success
envelope nests the `responses` array of the backend reply under
`result.content[0].json`, substituting the empty list when the reply has no
`responses` field. -/
theorem C10_responses_nested (base : String) (backend : FormsBackend)
    (store : TokenStore) (id_ : Json) (u : String) (fid mr : Json)
    (rec : CredentialRecord) (xs : List Json)
    (hauth : lookupUser store u = some rec) :
    ((backend.listResponses u fid mr).get? "responses" =
        some (Json.arr xs) →
      mcp_handler base backend store
          (mkCallPayload id_ u (Json.str "forms.list_responses")
            (Json.obj [("form_id", fid), ("max_results", mr)])) =
        ([BackendCall.listResponses u fid mr],
         Except.ok ⟨200, callSuccessBody id_ (Json.arr xs)⟩)) ∧
    ((backend.listResponses u fid mr).get? "responses" = none →
      mcp_handler base backend store
          (mkCallPayload id_ u (Json.str "forms.list_responses")
            (Json.obj [("form_id", fid), ("max_results", mr)])) =
        ([BackendCall.listResponses u fid mr],
         Except.ok ⟨200, callSuccessBody id_ (Json.arr [])⟩)) ∧
    ∀ v : Json, ((callSuccessBody id_ v).getD "result" Json.null).get?
        "content" =
      some (Json.arr [Json.obj [("type", Json.str "json"), ("json", v)]]) := by
  refine ⟨?_, ?_, fun v => rfl⟩ <;> intro hr <;>
    simp [mcp_handler, mkCallPayload, get_user_id, Json.getD, lookupStr,
      forms_list_responses, get_forms_service, hauth, hr]

/-- Witness for C10 with a concrete backend whose reply carries one
response. -/
theorem C10_responses_nested_witness :
    mcp_handler "http://b"
        (FormsBackend.mk (fun _ _ => Json.obj [])
          (fun _ _ _ => Json.obj [("responses", Json.arr [Json.str "a"])]))
        [("alice", ⟨"t", some "r"⟩)]
        (mkCallPayload Json.null "alice" (Json.str "forms.list_responses")
          (Json.obj [("form_id", Json.str "F"),
                     ("max_results", Json.num 5)])) =
      ([BackendCall.listResponses "alice" (Json.str "F") (Json.num 5)],
       Except.ok ⟨200, callSuccessBody Json.null (Json.arr [Json.str "a"])⟩) :=
  (C10_responses_nested "http://b"
      (FormsBackend.mk (fun _ _ => Json.obj [])
        (fun _ _ _ => Json.obj [("responses", Json.arr [Json.str "a"])]))
      [("alice", ⟨"t", some "r"⟩)] Json.null "alice" (Json.str "F")
      (Json.num 5) ⟨"t", some "r"⟩ [Json.str "a"] rfl).1 rfl

/-- The `id` field of each response body echoes the given id. -/
theorem get_id_initializeBody (i : Json) :
    (initializeBody i).get? "id" = some i := rfl

theorem get_id_toolsListBody (i : Json) :
    (toolsListBody i).get? "id" = some i := rfl

theorem get_id_callSuccessBody (i r : Json) :
    (callSuccessBody i r).get? "id" = some i := rfl

theorem get_id_methodNotFoundBody (i : Json) :
    (methodNotFoundBody i).get? "id" = some i := rfl

theorem get_id_auth_error (b : String) (i : Json) (u : String) :
    (auth_error b i u).get? "id" = some i := rfl

/-- Claim C9: every HTTP response the dispatcher produces — `initialize`,
`tools/list`, `tools/call` success, the 401 authorization error and the
`-32601` catch-all — carries an `id` field equal to the id of the request,
with `null` substituted when the request carries none. -/
theorem C9_id_echo (base : String) (backend : FormsBackend)
    (store : TokenStore) (payload : Json) (tr : List BackendCall)
    (resp : HttpResponse)
    (h : mcp_handler base backend store payload = (tr, Except.ok resp)) :
    resp.body.get? "id" = some (payload.getD "id" Json.null) := by
  simp only [mcp_handler] at h
  repeat' split at h
  all_goals
    rw [Prod.ext_iff] at h
  all_goals
    obtain ⟨h1, h2⟩ := h
  all_goals
    first
      | exact Except.noConfusion h2
      | (injection h2 with h3
         subst h3
         simp [get_id_initializeBody, get_id_toolsListBody,
           get_id_callSuccessBody, get_id_methodNotFoundBody,
           get_id_auth_error])

/-- Witness for C9 at a concrete `initialize` request. -/
theorem C9_id_echo_witness :
    (HttpResponse.mk 200 (initializeBody (Json.num 7))).body.get? "id" =
      some ((mkMethodPayload (Json.num 7) "alice"
        (Json.str "initialize")).getD "id" Json.null) :=
  C9_id_echo "http://b" emptyBackend []
    (mkMethodPayload (Json.num 7) "alice" (Json.str "initialize")) []
    (HttpResponse.mk 200 (initializeBody (Json.num 7))) rfl

end GF
